import Mathlib

/-!
Shallow embedding of `src/app.py` (Flask backend of the Language Translation
Tool): the `TranslationService` class (`translate_text`,
`get_supported_languages`), the `/translate` and `/languages` route handlers,
and the 404/500 error handlers.  External effects (the outbound HTTP request
to the MyMemory provider, JSON parsing of its body) are passed in as explicit
outcome values; everything the Python code computes from those outcomes is
translated directly.
-/

set_option maxHeartbeats 1000000

namespace TranslationTool

/-- A JSON value as it appears in the parsed request body dictionary
(`request.get_json()`).  Strings, numbers and `null` are enough to express
every behaviour of `app.py` the handler can reach: the code only ever trims
strings, compares values for equality, and echoes values back. -/
inductive JsonVal where
  | str (s : String)
  | num (n : Int)
  | null
deriving DecidableEq, Repr

/-- Python type name of a `JsonVal`, as it appears in `AttributeError`
messages such as `'int' object has no attribute 'strip'`. -/
def pyTypeName : JsonVal → String
  | .str _ => "str"
  | .num _ => "int"
  | .null => "NoneType"

/-- `str(x)` for the values a request dictionary can hold (used by the
f-string that builds the provider URL). -/
def pyStr : JsonVal → String
  | .str s => s
  | .num n => toString n
  | .null => "None"

/-- Characters stripped by Python's `str.strip()` with no argument: exactly
the characters `c` with `c.isspace()` true (ASCII whitespace, the C1 controls
U+001C..U+001F, NEL, NBSP, and the Unicode space separators). -/
def pyIsSpace (c : Char) : Bool :=
  c = ' ' || c = '\t' || c = '\n' || c = '\r' || c = '\x0b' || c = '\x0c' ||
  c = '\x1c' || c = '\x1d' || c = '\x1e' || c = '\x1f' || c = '\x85' || c = '\xa0' ||
  c = ' ' || (' ' ≤ c && c ≤ ' ') || c = ' ' || c = ' ' ||
  c = ' ' || c = ' ' || c = '　'

/-- Python `s.strip()`: drop leading and trailing whitespace characters. -/
def pyStrip (s : String) : String :=
  ⟨((s.data.dropWhile pyIsSpace).reverse.dropWhile pyIsSpace).reverse⟩

/-! ### `urllib.parse.quote` and its inverse

`quote(text)` UTF-8-encodes the string and percent-encodes every byte that is
not unreserved (ALPHA / DIGIT / `_` `.` `-` `~`) and not in the default
`safe='/'` set.  `utf8EncodeChar` is standard UTF-8, written with division and
remainder so the arithmetic stays in `Nat`. -/

/-- The UTF-8 encoding of one Unicode scalar value `v`, as a list of bytes
(each `< 256`). -/
def utf8EncodeNat (v : Nat) : List Nat :=
  if v < 0x80 then [v]
  else if v < 0x800 then [0xC0 + v / 64, 0x80 + v % 64]
  else if v < 0x10000 then
    [0xE0 + v / 4096, 0x80 + v / 64 % 64, 0x80 + v % 64]
  else
    [0xF0 + v / 262144, 0x80 + v / 4096 % 64, 0x80 + v / 64 % 64, 0x80 + v % 64]

/-- The UTF-8 encoding of one character. -/
def utf8EncodeChar (c : Char) : List Nat :=
  utf8EncodeNat c.toNat

/-- Bytes `quote` leaves unencoded: the always-safe set
(ALPHA, DIGIT, `_`, `.`, `-`, `~`) plus the default `safe='/'`. -/
def isSafeByte (b : Nat) : Bool :=
  (65 ≤ b && b ≤ 90) || (97 ≤ b && b ≤ 122) || (48 ≤ b && b ≤ 57) ||
  b = 45 || b = 46 || b = 95 || b = 126 || b = 47

/-- Uppercase hexadecimal digit character for `n < 16` (as `quote` emits). -/
def hexDigit (n : Nat) : Char :=
  if n < 10 then Char.ofNat (48 + n) else Char.ofNat (55 + n)

/-- Percent-encoding of a single byte: kept verbatim when safe, `%XX`
otherwise. -/
def percentEncodeByte (b : Nat) : List Char :=
  if isSafeByte b then [Char.ofNat b] else ['%', hexDigit (b / 16), hexDigit (b % 16)]

/-- `urllib.parse.quote(s)` with the default `safe='/'`. -/
def quote (s : String) : String :=
  ⟨((s.data.map utf8EncodeChar).flatten.map percentEncodeByte).flatten⟩

/-- Value of a hexadecimal digit character (upper or lower case), `none`
otherwise. -/
def hexVal (c : Char) : Option Nat :=
  if 48 ≤ c.toNat ∧ c.toNat ≤ 57 then some (c.toNat - 48)
  else if 65 ≤ c.toNat ∧ c.toNat ≤ 70 then some (c.toNat - 55)
  else if 97 ≤ c.toNat ∧ c.toNat ≤ 102 then some (c.toNat - 87)
  else none

/-- Streaming percent-decoder.  `p` counts the hex digits still expected
after a `%` (2, then 1), `acc` accumulates their value.  In the idle state
(`p = 0`) a `%` opens an escape and any other character stands for its own
code point. -/
def percentDecodeAux : List Char → Nat → Nat → Option (List Nat)
  | [], p, _ => if p = 0 then some [] else none
  | c :: cs, p, acc =>
    if p = 0 then
      if c = '%' then percentDecodeAux cs 2 0
      else (percentDecodeAux cs 0 0).map (fun bs => c.toNat :: bs)
    else
      match hexVal c with
      | some d =>
        if p = 1 then (percentDecodeAux cs 0 0).map (fun bs => (acc * 16 + d) :: bs)
        else percentDecodeAux cs (p - 1) (acc * 16 + d)
      | none => none

/-- Percent-decoding: `%XX` becomes the byte `XX`, any other character stands
for its own code point.  `none` on a malformed or truncated escape (Python's
`unquote` is lenient there, but no output of `quote` is malformed). -/
def percentDecode (cs : List Char) : Option (List Nat) :=
  percentDecodeAux cs 0 0

/-- Streaming strict UTF-8 decoder.  `p` is the number of continuation bytes
still expected, `acc` the partial code point accumulated so far, `lo` the
smallest value the current sequence may legally produce (overlong check).
In the idle state (`p = 0`) a byte is classified as ASCII, an invalid lead
(`0x80..0xC1` covers stray continuation bytes and the overlong-only leads
`0xC0`/`0xC1`), or the lead of a 2/3/4-byte sequence (`0xF5..` is beyond
Unicode).  On the final continuation byte the decoder enforces the overlong
bound, excludes surrogates and the values above `0x10FFFF` — exactly the
sequences Python's strict `utf-8` codec rejects. -/
def utf8DecodeAux : List Nat → Nat → Nat → Nat → Option (List Nat)
  | [], p, _, _ => if p = 0 then some [] else none
  | b :: bs, p, acc, lo =>
    if p = 0 then
      if b < 0x80 then (utf8DecodeAux bs 0 0 0).map (fun vs => b :: vs)
      else if b < 0xC2 then none
      else if b < 0xE0 then utf8DecodeAux bs 1 (b - 0xC0) 0x80
      else if b < 0xF0 then utf8DecodeAux bs 2 (b - 0xE0) 0x800
      else if b < 0xF5 then utf8DecodeAux bs 3 (b - 0xF0) 0x10000
      else none
    else if 0x80 ≤ b ∧ b < 0xC0 then
      if p = 1 then
        if lo ≤ acc * 64 + (b - 0x80) ∧
            (acc * 64 + (b - 0x80) < 0xD800 ∨ 0xE000 ≤ acc * 64 + (b - 0x80)) ∧
            acc * 64 + (b - 0x80) < 0x110000 then
          (utf8DecodeAux bs 0 0 0).map (fun vs => (acc * 64 + (b - 0x80)) :: vs)
        else none
      else utf8DecodeAux bs (p - 1) (acc * 64 + (b - 0x80)) lo
    else none

/-- UTF-8 decoding of a byte list into code points: `none` on truncated
sequences, invalid lead or continuation bytes, overlong encodings, surrogates
or out-of-range values (as Python's strict `utf-8` codec rejects them). -/
def utf8Decode (bs : List Nat) : Option (List Nat) :=
  utf8DecodeAux bs 0 0 0

/-- `urllib.parse.unquote` on well-formed input: percent-decode to bytes,
then UTF-8-decode to text.  `none` where Python's decoder would reject or
substitute (never the case on an output of `quote`). -/
def unquote (s : String) : Option String := do
  let bs ← percentDecode s.data
  let vs ← utf8Decode bs
  let cs ← vs.mapM (fun v => if Nat.isValidChar v then some (Char.ofNat v) else none)
  pure ⟨cs⟩

/-! ### The translation service (`TranslationService` in `app.py`) -/

/-- `self.base_url` of `TranslationService`. -/
def base_url : String := "https://api.mymemory.translated.net/get"

/-- The URL `translate_text` builds:
`f"{self.base_url}?q={encoded_text}&langpair={source_lang}|{target_lang}"`. -/
def request_url (text : String) (source_lang target_lang : JsonVal) : String :=
  base_url ++ "?q=" ++ quote text ++ "&langpair=" ++ pyStr source_lang ++ "|" ++ pyStr target_lang

/-- The `responseData` object of a MyMemory payload.  The code reads only
`translatedText`; any other keys the provider sends (match score, detected
language, …) sit in `extra` and are ignored. -/
structure ResponseData where
  translatedText : Option String
  extra : List (String × String)
deriving DecidableEq, Repr

/-- A successfully parsed provider payload.  The code reads
`responseStatus`, `responseData.translatedText` and `responseDetails`;
further keys sit in `extra`. -/
structure Payload where
  responseStatus : Option Int
  responseData : Option ResponseData
  responseDetails : Option String
  extra : List (String × String)
deriving DecidableEq, Repr

/-- Outcome of `response.json()`: a parse failure (raises `ValueError`, which
only the generic `except Exception` catches) or a payload. -/
inductive ParseOutcome where
  | fail (msg : String)
  | ok (p : Payload)
deriving DecidableEq, Repr

/-- Outcome of `requests.get(url, timeout=10)`:
either the call raises a `requests.RequestException` (timeout, DNS failure,
connection refused, …), or an HTTP response arrives with a status code, a
reason phrase, and a body that `response.json()` will attempt to parse. -/
inductive ProviderOutcome where
  | requestError (msg : String)
  | response (status : Nat) (reason : String) (body : ParseOutcome)
deriving DecidableEq, Repr

/-- The uniform result envelope: `{'success': True, 'translated_text': …,
'source_lang': …, 'target_lang': …}` or `{'success': False, 'error': …}`.
The language fields hold whatever values the caller passed in. -/
inductive Envelope where
  | success (translated_text : String) (source_lang target_lang : JsonVal)
  | failure (error : String)
deriving DecidableEq, Repr

/-- `str(e)` for the `requests.HTTPError` raised by
`response.raise_for_status()`, which raises exactly for status codes in
400..599: `"<code> Client Error: <reason> for url: <url>"` (4xx) or
`"<code> Server Error: <reason> for url: <url>"` (5xx). -/
def httpErrorMessage (status : Nat) (reason url : String) : String :=
  if status < 500 then
    toString status ++ " Client Error: " ++ reason ++ " for url: " ++ url
  else
    toString status ++ " Server Error: " ++ reason ++ " for url: " ++ url

/-- `str(KeyError(k))` as raised by a missing dictionary key. -/
def keyErrorMessage (k : String) : String := "'" ++ k ++ "'"

/-- `TranslationService.translate_text(text, source_lang, target_lang)`.
The provider interaction is the explicit argument `net`; every branch below
mirrors a control path of the Python method:
`requests.RequestException` (from `requests.get` or `raise_for_status`)
→ `Network error: …`; any other exception (JSON parse failure, missing
payload fields) → `Translation error: …`; `responseStatus == 200` with the
translated text present → the success envelope echoing `source_lang` and
`target_lang`; any other `responseStatus` → the provider's
`responseDetails`, defaulting to `"Translation failed"`. -/
def translate_text (text : String) (source_lang target_lang : JsonVal)
    (net : ProviderOutcome) : Envelope :=
  match net with
  | .requestError msg => .failure ("Network error: " ++ msg)
  | .response status reason body =>
    if 400 ≤ status ∧ status < 600 then
      .failure ("Network error: " ++
        httpErrorMessage status reason (request_url text source_lang target_lang))
    else
      match body with
      | .fail msg => .failure ("Translation error: " ++ msg)
      | .ok p =>
        if p.responseStatus = some 200 then
          match p.responseData with
          | none => .failure ("Translation error: " ++ keyErrorMessage "responseData")
          | some rd =>
            match rd.translatedText with
            | none => .failure ("Translation error: " ++ keyErrorMessage "translatedText")
            | some t => .success t source_lang target_lang
        else
          .failure (p.responseDetails.getD "Translation failed")

/-- `TranslationService.get_supported_languages()`: the literal dictionary
from `app.py`, in source order. -/
def get_supported_languages : List (String × String) :=
  [("auto", "Auto-detect"),
   ("en", "English"),
   ("hi", "Hindi"),
   ("bn", "Bengali"),
   ("gu", "Gujarati"),
   ("ml", "Malayalam"),
   ("mr", "Marathi"),
   ("ta", "Tamil"),
   ("te", "Telugu"),
   ("es", "Spanish"),
   ("fr", "French"),
   ("de", "German"),
   ("it", "Italian"),
   ("pt", "Portuguese"),
   ("ru", "Russian"),
   ("ja", "Japanese"),
   ("ko", "Korean"),
   ("zh", "Chinese (Simplified)"),
   ("zh-tw", "Chinese (Traditional)"),
   ("ar", "Arabic"),
   ("th", "Thai"),
   ("vi", "Vietnamese"),
   ("nl", "Dutch"),
   ("sv", "Swedish"),
   ("no", "Norwegian"),
   ("da", "Danish"),
   ("fi", "Finnish"),
   ("pl", "Polish"),
   ("el", "Greek"),
   ("ro", "Romanian")]

/-! ### The Flask routes -/

/-- What `request.get_json()` produced inside the handler's `try` block:
either it raised (malformed body, wrong content type — caught by the
handler's `except`), or it returned `None` (JSON `null`), or a dictionary. -/
inductive ReqBody where
  | invalid (msg : String)
  | parsed (data : Option (List (String × JsonVal)))
deriving DecidableEq, Repr

/-- Dictionary lookup, `d[k]` / `k in d`. -/
def dictGet (d : List (String × JsonVal)) (k : String) : Option JsonVal :=
  match d with
  | [] => none
  | (k', v) :: rest => if k' = k then some v else dictGet rest k

/-- `d.get(k, default)`. -/
def dictGetD (d : List (String × JsonVal)) (k : String) (dflt : JsonVal) : JsonVal :=
  (dictGet d k).getD dflt

/-- Body of an HTTP response produced by this app: either a result envelope
(`jsonify` of a success/failure dictionary) or the language catalog object. -/
inductive RespBody where
  | env (e : Envelope)
  | langs (m : List (String × String))
deriving DecidableEq, Repr

/-- An HTTP response: status code plus JSON body.  `jsonify(x)` alone is
status 200; the error handlers attach 404 / 500 explicitly. -/
structure HttpResponse where
  status : Nat
  body : RespBody
deriving DecidableEq, Repr

/-- `str(e)` for the `AttributeError` raised by `data['text'].strip()` when
the value under `'text'` is not a string. -/
def stripAttrError (v : JsonVal) : String :=
  "'" ++ pyTypeName v ++ "' object has no attribute 'strip'"

/-- The `POST /translate` handler.  Mirrors `app.py` line by line:
a raising `get_json` is caught by the outer `except` (`Server error: …`);
`not data or 'text' not in data` → `No text provided` (an empty dictionary
has no `'text'` key, so the two conditions collapse to a failed lookup);
a non-string `'text'` value makes `.strip()` raise, again caught by the
outer `except`; then the three validations in source order; finally the
delegation to `translate_text`.  Every response is `jsonify(...)`,
hence status 200. -/
def translate (body : ReqBody) (net : ProviderOutcome) : HttpResponse :=
  match body with
  | .invalid msg => ⟨200, .env (.failure ("Server error: " ++ msg))⟩
  | .parsed none => ⟨200, .env (.failure "No text provided")⟩
  | .parsed (some d) =>
    match dictGet d "text" with
    | none => ⟨200, .env (.failure "No text provided")⟩
    | some (.str raw) =>
      let text := pyStrip raw
      let source_lang := dictGetD d "source_lang" (.str "auto")
      let target_lang := dictGetD d "target_lang" (.str "en")
      if text = "" then
        ⟨200, .env (.failure "Please enter text to translate")⟩
      else if 5000 < text.length then
        ⟨200, .env (.failure "Text too long (max 5000 characters)")⟩
      else if source_lang = target_lang ∧ source_lang ≠ .str "auto" then
        ⟨200, .env (.failure "Source and target languages cannot be the same")⟩
      else
        ⟨200, .env (translate_text text source_lang target_lang net)⟩
    | some v => ⟨200, .env (.failure ("Server error: " ++ stripAttrError v))⟩

/-- The `GET /languages` handler: `jsonify(translator.get_supported_languages())`. -/
def get_languages : HttpResponse := ⟨200, .langs get_supported_languages⟩

/-- The 404 handler. -/
def not_found : HttpResponse := ⟨404, .env (.failure "Endpoint not found")⟩

/-- The 500 handler. -/
def internal_error : HttpResponse := ⟨500, .env (.failure "Internal server error")⟩

end TranslationTool

/-!
## Verification

Helper lemmas first, then one theorem per claim of the specification review,
each with a closed witness when the theorem carries hypotheses.
-/

namespace TranslationTool

/-- Every character's code point is a Unicode scalar value: below the
surrogate block or above it and within range. -/
theorem char_toNat_valid (c : Char) :
    c.toNat < 0xD800 ∨ (0xE000 ≤ c.toNat ∧ c.toNat < 0x110000) := by
  rcases c.valid with h | ⟨h1, h2⟩
  · exact Or.inl h
  · have h1' : (0xdfff : Nat) < c.toNat := h1
    have h2' : c.toNat < 0x110000 := h2
    omega

/-- UTF-8 encoding produces bytes. -/
theorem utf8EncodeNat_lt_256 (v : Nat) (hv : v < 0x110000) :
    ∀ b ∈ utf8EncodeNat v, b < 256 := by
  intro b hb
  unfold utf8EncodeNat at hb
  split_ifs at hb with h1 h2 h3 <;>
    simp only [List.mem_cons, List.not_mem_nil, or_false] at hb
  · omega
  · rcases hb with hb | hb <;> omega
  · rcases hb with hb | hb | hb <;> omega
  · rcases hb with hb | hb | hb | hb <;> omega

/-- The UTF-8 decoder undoes the encoder on one scalar value, in front of any
remaining input. -/
theorem utf8DecodeAux_encode (v : Nat)
    (hv : v < 0xD800 ∨ (0xE000 ≤ v ∧ v < 0x110000)) (rest : List Nat) :
    utf8DecodeAux (utf8EncodeNat v ++ rest) 0 0 0 =
      (utf8DecodeAux rest 0 0 0).map (fun vs => v :: vs) := by
  have hv' : v < 0x110000 := by rcases hv with h | ⟨_, h⟩ <;> omega
  unfold utf8EncodeNat
  split_ifs with h1 h2 h3
  · simp only [List.cons_append, List.nil_append]
    rw [utf8DecodeAux, if_pos rfl, if_pos h1]
  · simp only [List.cons_append, List.nil_append]
    rw [utf8DecodeAux, if_pos rfl, if_neg (by omega), if_neg (by omega), if_pos (by omega)]
    rw [utf8DecodeAux, if_neg (by omega), if_pos (by omega), if_pos (by omega),
      if_pos (by omega)]
    have harith : (0xC0 + v / 64 - 0xC0) * 64 + (0x80 + v % 64 - 0x80) = v := by omega
    rw [harith]
  · simp only [List.cons_append, List.nil_append]
    rw [utf8DecodeAux, if_pos rfl, if_neg (by omega), if_neg (by omega), if_neg (by omega),
      if_pos (by omega)]
    rw [utf8DecodeAux, if_neg (by omega), if_pos (by omega), if_neg (by omega)]
    rw [utf8DecodeAux, if_neg (by omega), if_pos (by omega), if_pos (by omega),
      if_pos (by omega)]
    have harith : ((0xE0 + v / 4096 - 0xE0) * 64 + (0x80 + v / 64 % 64 - 0x80)) * 64 +
        (0x80 + v % 64 - 0x80) = v := by omega
    rw [harith]
  · simp only [List.cons_append, List.nil_append]
    rw [utf8DecodeAux, if_pos rfl, if_neg (by omega), if_neg (by omega), if_neg (by omega),
      if_neg (by omega), if_pos (by omega)]
    rw [utf8DecodeAux, if_neg (by omega), if_pos (by omega), if_neg (by omega)]
    rw [utf8DecodeAux, if_neg (by omega), if_pos (by omega), if_neg (by omega)]
    rw [utf8DecodeAux, if_neg (by omega), if_pos (by omega), if_pos (by omega),
      if_pos (by omega)]
    have harith : (((0xF0 + v / 262144 - 0xF0) * 64 + (0x80 + v / 4096 % 64 - 0x80)) * 64 +
        (0x80 + v / 64 % 64 - 0x80)) * 64 + (0x80 + v % 64 - 0x80) = v := by omega
    rw [harith]

/-- The UTF-8 decoder undoes the encoder on a whole character list. -/
theorem utf8Decode_flatten (cs : List Char) :
    utf8Decode ((cs.map utf8EncodeChar).flatten) = some (cs.map Char.toNat) := by
  induction cs with
  | nil => rfl
  | cons c t ih =>
    simp only [List.map_cons, List.flatten_cons, utf8EncodeChar]
    unfold utf8Decode at ih ⊢
    rw [utf8DecodeAux_encode c.toNat (char_toNat_valid c), ih]
    rfl

/-- `Char.ofNat` on a valid scalar value keeps its code point. -/
theorem toNat_ofNat_of_valid (n : Nat) (h : Nat.isValidChar n) :
    (Char.ofNat n).toNat = n := by
  rw [Char.ofNat, dif_pos h]
  rfl

/-- The hex-digit reader undoes the hex-digit writer. -/
theorem hexVal_hexDigit (d : Nat) (h : d < 16) : hexVal (hexDigit d) = some d := by
  by_cases h1 : d < 10
  · rw [hexDigit, if_pos h1]
    have ht : (Char.ofNat (48 + d)).toNat = 48 + d :=
      toNat_ofNat_of_valid _ (Or.inl (by omega))
    unfold hexVal
    simp only [ht]
    rw [if_pos (by omega)]
    congr 1
    omega
  · rw [hexDigit, if_neg h1]
    have ht : (Char.ofNat (55 + d)).toNat = 55 + d :=
      toNat_ofNat_of_valid _ (Or.inl (by omega))
    unfold hexVal
    simp only [ht]
    rw [if_neg (by omega), if_pos (by omega)]
    congr 1
    omega

/-- The percent-decoder undoes the percent-encoder on one byte, in front of
any remaining input. -/
theorem percentDecodeAux_encodeByte (b : Nat) (hb : b < 256) (rest : List Char) :
    percentDecodeAux (percentEncodeByte b ++ rest) 0 0 =
      (percentDecodeAux rest 0 0).map (fun bs => b :: bs) := by
  unfold percentEncodeByte
  by_cases hs : isSafeByte b = true
  · rw [if_pos hs]
    have hrange : b < 128 := by
      simp only [isSafeByte, Bool.or_eq_true, Bool.and_eq_true, decide_eq_true_eq] at hs
      omega
    have ht : (Char.ofNat b).toNat = b := toNat_ofNat_of_valid _ (Or.inl (by omega))
    have hne : Char.ofNat b ≠ '%' := by
      intro heq
      have h37 : (Char.ofNat b).toNat = 37 := by rw [heq]; rfl
      rw [ht] at h37
      subst h37
      simp only [isSafeByte] at hs
      exact absurd hs (by decide)
    simp only [List.cons_append, List.nil_append]
    rw [percentDecodeAux, if_pos rfl, if_neg hne, ht]
  · rw [if_neg hs]
    simp only [List.cons_append, List.nil_append]
    rw [percentDecodeAux, if_pos rfl, if_pos rfl]
    rw [percentDecodeAux, if_neg (by omega)]
    simp only [hexVal_hexDigit (b / 16) (by omega)]
    rw [if_neg (by omega)]
    rw [percentDecodeAux, if_neg (by omega)]
    simp only [hexVal_hexDigit (b % 16) (by omega)]
    simp only [if_true]
    have harith : (0 * 16 + b / 16) * 16 + b % 16 = b := by omega
    rw [harith]

/-- The percent-decoder undoes the percent-encoder on a whole byte list. -/
theorem percentDecode_flatten (bs : List Nat) (h : ∀ b ∈ bs, b < 256) :
    percentDecode ((bs.map percentEncodeByte).flatten) = some bs := by
  unfold percentDecode
  induction bs with
  | nil => rfl
  | cons b t ih =>
    simp only [List.map_cons, List.flatten_cons]
    rw [percentDecodeAux_encodeByte b (h b (List.mem_cons_self b t))]
    rw [ih (fun x hx => h x (List.mem_cons_of_mem _ hx))]
    rfl

/-- Rebuilding characters from the code points of a character list gives the
list back. -/
theorem mapM_ofNat_toNat (cs : List Char) :
    (cs.map Char.toNat).mapM
      (fun v => if Nat.isValidChar v then some (Char.ofNat v) else none) = some cs := by
  induction cs with
  | nil => rfl
  | cons c t ih =>
    have hv : Nat.isValidChar c.toNat := by
      rcases char_toNat_valid c with h | ⟨h1, h2⟩
      · exact Or.inl h
      · exact Or.inr ⟨by omega, h2⟩
    simp only [List.map_cons, List.mapM_cons, if_pos hv, Char.ofNat_toNat, ih]
    rfl

/-- A list whose elements all fail the predicate is untouched by
`dropWhile`. -/
theorem dropWhile_eq_self_of_forall {α : Type} (p : α → Bool) (l : List α)
    (h : ∀ c ∈ l, p c = false) : l.dropWhile p = l := by
  cases l with
  | nil => rfl
  | cons a t =>
    rw [List.dropWhile_cons, if_neg]
    simp [h a (List.mem_cons_self a t)]

/-- `strip()` leaves a string without whitespace characters unchanged. -/
theorem pyStrip_of_no_space (s : String) (h : ∀ c ∈ s.data, pyIsSpace c = false) :
    pyStrip s = s := by
  rcases s with ⟨l⟩
  unfold pyStrip
  rw [dropWhile_eq_self_of_forall _ _ h,
      dropWhile_eq_self_of_forall _ _ (fun c hc => h c (List.mem_reverse.mp hc)),
      List.reverse_reverse]

/-- `strip()` leaves a run of letters unchanged. -/
theorem pyStrip_replicate_a (n : Nat) :
    pyStrip ⟨List.replicate n 'a'⟩ = ⟨List.replicate n 'a'⟩ := by
  apply pyStrip_of_no_space
  intro c hc
  have h := List.eq_of_mem_replicate hc
  subst h
  decide

end TranslationTool

namespace TranslationTool

/-- C1: whenever the provider's parsed payload reports `responseStatus = 200`
and carries a translated text (the path on which `translate_text` builds its
success envelope), the result is the success envelope whose `source_lang` and
`target_lang` fields are exactly the caller-supplied arguments — whatever
else (`extra` fields, provider-reported languages) the payload contains. -/
theorem translate_text_success_echoes_requested_langs
    (text : String) (source_lang target_lang : JsonVal)
    (status : Nat) (reason : String) (p : Payload) (rd : ResponseData) (t : String)
    (hstatus : ¬(400 ≤ status ∧ status < 600))
    (hp : p.responseStatus = some 200)
    (hrd : p.responseData = some rd)
    (ht : rd.translatedText = some t) :
    translate_text text source_lang target_lang (.response status reason (.ok p)) =
      .success t source_lang target_lang := by
  simp [translate_text, hstatus, hp, hrd, ht]

/-- Witness for C1 at a concrete request and payload carrying an extra
provider-reported field that is ignored. -/
theorem translate_text_success_echoes_requested_langs_witness :
    translate_text "hi" (.str "en") (.str "fr")
        (.response 200 "OK"
          (.ok ⟨some 200, some ⟨some "bonjour", [("detectedLanguage", "de")]⟩, none, []⟩)) =
      .success "bonjour" (.str "en") (.str "fr") :=
  translate_text_success_echoes_requested_langs "hi" (.str "en") (.str "fr") 200 "OK"
    ⟨some 200, some ⟨some "bonjour", [("detectedLanguage", "de")]⟩, none, []⟩
    ⟨some "bonjour", [("detectedLanguage", "de")]⟩ "bonjour" (by decide) rfl rfl rfl

/-- C2: for a request whose `text` entry is a string that is non-empty and
within the length bound after trimming, the handler returns the
same-language error exactly when `source_lang = target_lang` and
`source_lang ≠ "auto"`; otherwise (in particular for
`source_lang = target_lang = "auto"`) it proceeds to the translation call. -/
theorem translate_same_language_check
    (d : List (String × JsonVal)) (raw : String) (net : ProviderOutcome)
    (htext : dictGet d "text" = some (.str raw))
    (hne : pyStrip raw ≠ "")
    (hlen : (pyStrip raw).length ≤ 5000) :
    (dictGetD d "source_lang" (.str "auto") = dictGetD d "target_lang" (.str "en") ∧
        dictGetD d "source_lang" (.str "auto") ≠ .str "auto" →
      translate (.parsed (some d)) net =
        ⟨200, .env (.failure "Source and target languages cannot be the same")⟩) ∧
    (¬(dictGetD d "source_lang" (.str "auto") = dictGetD d "target_lang" (.str "en") ∧
        dictGetD d "source_lang" (.str "auto") ≠ .str "auto") →
      translate (.parsed (some d)) net =
        ⟨200, .env (translate_text (pyStrip raw)
          (dictGetD d "source_lang" (.str "auto"))
          (dictGetD d "target_lang" (.str "en")) net)⟩) := by
  constructor <;> intro hc <;>
    simp only [translate, htext] <;>
    rw [if_neg hne, if_neg (by omega)]
  · rw [if_pos hc]
  · rw [if_neg hc]

/-- Witness for C2: `en → en` is rejected with the same-language error, while
`auto → auto` passes the check and reaches the provider call (whose network
failure is then reported). -/
theorem translate_same_language_check_witness :
    translate (.parsed (some [("text", .str "hi"), ("source_lang", .str "en"),
        ("target_lang", .str "en")])) (.requestError "timed out") =
      ⟨200, .env (.failure "Source and target languages cannot be the same")⟩ ∧
    translate (.parsed (some [("text", .str "hi"), ("source_lang", .str "auto"),
        ("target_lang", .str "auto")])) (.requestError "timed out") =
      ⟨200, .env (.failure "Network error: timed out")⟩ := by
  constructor
  · exact (translate_same_language_check
      [("text", .str "hi"), ("source_lang", .str "en"), ("target_lang", .str "en")]
      "hi" (.requestError "timed out") rfl (by decide) (by decide)).1 (by decide)
  · exact ((translate_same_language_check
      [("text", .str "hi"), ("source_lang", .str "auto"), ("target_lang", .str "auto")]
      "hi" (.requestError "timed out") rfl (by decide) (by decide)).2
      (by decide)).trans (by rfl)

/-- C3: the length check applies to the trimmed text with an inclusive bound
of 5000.  A trimmed text of 5001 characters is rejected with the too-long
error for every provider behaviour (so the provider is never consulted),
while a trimmed text of exactly 5000 characters passes the length check and
the handler continues with the same-language check and the translation
call. -/
theorem translate_length_boundary
    (d : List (String × JsonVal)) (raw : String)
    (htext : dictGet d "text" = some (.str raw)) :
    ((pyStrip raw).length = 5001 → ∀ net,
      translate (.parsed (some d)) net =
        ⟨200, .env (.failure "Text too long (max 5000 characters)")⟩) ∧
    ((pyStrip raw).length = 5000 → ∀ net,
      translate (.parsed (some d)) net =
        (if dictGetD d "source_lang" (.str "auto") = dictGetD d "target_lang" (.str "en") ∧
            dictGetD d "source_lang" (.str "auto") ≠ .str "auto"
         then ⟨200, .env (.failure "Source and target languages cannot be the same")⟩
         else ⟨200, .env (translate_text (pyStrip raw)
           (dictGetD d "source_lang" (.str "auto"))
           (dictGetD d "target_lang" (.str "en")) net)⟩)) := by
  constructor <;> intro hlen net
  · have hne : pyStrip raw ≠ "" := by
      intro h
      rw [h] at hlen
      simp [String.length] at hlen
    simp only [translate, htext]
    rw [if_neg hne, if_pos (by omega)]
  · have hne : pyStrip raw ≠ "" := by
      intro h
      rw [h] at hlen
      simp [String.length] at hlen
    simp only [translate, htext]
    rw [if_neg hne, if_neg (by omega)]

/-- Witness for C3 at 5001 and 5000 copies of `'a'`: the former is rejected
without consulting the provider, the latter reaches the provider call. -/
theorem translate_length_boundary_witness :
    translate (.parsed (some [("text", .str ⟨List.replicate 5001 'a'⟩)]))
        (.requestError "t") =
      ⟨200, .env (.failure "Text too long (max 5000 characters)")⟩ ∧
    translate (.parsed (some [("text", .str ⟨List.replicate 5000 'a'⟩)]))
        (.requestError "t") =
      ⟨200, .env (.failure "Network error: t")⟩ := by
  have h5001 : (pyStrip ⟨List.replicate 5001 'a'⟩).length = 5001 := by
    rw [pyStrip_replicate_a]
    show (List.replicate 5001 'a').length = 5001
    rw [List.length_replicate]
  have h5000 : (pyStrip ⟨List.replicate 5000 'a'⟩).length = 5000 := by
    rw [pyStrip_replicate_a]
    show (List.replicate 5000 'a').length = 5000
    rw [List.length_replicate]
  constructor
  · exact (translate_length_boundary [("text", .str ⟨List.replicate 5001 'a'⟩)]
      ⟨List.replicate 5001 'a'⟩ rfl).1 h5001 _
  · refine ((translate_length_boundary [("text", .str ⟨List.replicate 5000 'a'⟩)]
      ⟨List.replicate 5000 'a'⟩ rfl).2 h5000 _).trans ?_
    rw [if_neg (by decide)]
    rfl

/-- C4: inside `translate_text`, faults other than a
`requests.RequestException` are caught by the generic handler and surface as
a `Translation error: …` failure: an unparsable body, and a `responseStatus
= 200` payload whose `responseData`/`translatedText` fields are missing.
Moreover `translate_text` is total: every provider outcome is mapped to a
success or failure envelope, never an unhandled fault. -/
theorem translate_text_unexpected_error_caught (text : String) (sl tl : JsonVal) :
    (∀ status reason msg, ¬(400 ≤ status ∧ status < 600) →
      translate_text text sl tl (.response status reason (.fail msg)) =
        .failure ("Translation error: " ++ msg)) ∧
    (∀ status reason p, ¬(400 ≤ status ∧ status < 600) →
      p.responseStatus = some 200 →
      (p.responseData = none ∨ ∃ rd, p.responseData = some rd ∧ rd.translatedText = none) →
      ∃ m, translate_text text sl tl (.response status reason (.ok p)) =
        .failure ("Translation error: " ++ m)) ∧
    (∀ net, (∃ t, translate_text text sl tl net = .success t sl tl) ∨
      (∃ e, translate_text text sl tl net = .failure e)) := by
  refine ⟨fun status reason msg h => ?_, fun status reason p h hst hmiss => ?_, fun net => ?_⟩
  · simp only [translate_text]
    rw [if_neg h]
  · simp only [translate_text]
    rw [if_neg h, if_pos hst]
    rcases hmiss with hnone | ⟨rd, hrd, htt⟩
    · rw [hnone]
      exact ⟨_, rfl⟩
    · rw [hrd]
      simp only [htt]
      exact ⟨_, rfl⟩
  · cases net with
    | requestError msg => exact Or.inr ⟨_, rfl⟩
    | response status reason body =>
      cases body with
      | fail msg =>
        simp only [translate_text]
        split_ifs <;> exact Or.inr ⟨_, rfl⟩
      | ok p =>
        obtain ⟨rs, rdOpt, rdet, ex⟩ := p
        simp only [translate_text]
        split_ifs with h1 h2
        · exact Or.inr ⟨_, rfl⟩
        · cases rdOpt with
          | none => exact Or.inr ⟨_, rfl⟩
          | some rd =>
            obtain ⟨tt, ex2⟩ := rd
            cases tt with
            | none => exact Or.inr ⟨_, rfl⟩
            | some t => exact Or.inl ⟨t, rfl⟩
        · exact Or.inr ⟨_, rfl⟩

/-- Witness for C4: a JSON parse failure and a status-200 payload missing
`responseData` both yield `Translation error: …` failures. -/
theorem translate_text_unexpected_error_caught_witness :
    translate_text "hi" (.str "en") (.str "fr")
        (.response 200 "OK" (.fail "Expecting value")) =
      .failure "Translation error: Expecting value" ∧
    ∃ m, translate_text "hi" (.str "en") (.str "fr")
        (.response 200 "OK" (.ok ⟨some 200, none, none, []⟩)) =
      .failure ("Translation error: " ++ m) := by
  constructor
  · exact ((translate_text_unexpected_error_caught "hi" (.str "en") (.str "fr")).1
      200 "OK" "Expecting value" (by decide)).trans (by rfl)
  · exact (translate_text_unexpected_error_caught "hi" (.str "en") (.str "fr")).2.1
      200 "OK" ⟨some 200, none, none, []⟩ (by decide) rfl (Or.inl rfl)

/-- C5 (amended): a raised `requests.RequestException` — timeout, DNS
failure, connection refused — and every HTTP status in 400..599 (for which
`raise_for_status` raises) produce a `Network error: …` failure. -/
theorem translate_text_network_error_range (text : String) (sl tl : JsonVal) :
    (∀ msg, translate_text text sl tl (.requestError msg) =
      .failure ("Network error: " ++ msg)) ∧
    (∀ status reason body, 400 ≤ status → status < 600 →
      translate_text text sl tl (.response status reason body) =
        .failure ("Network error: " ++
          httpErrorMessage status reason (request_url text sl tl))) := by
  refine ⟨fun msg => rfl, fun status reason body h1 h2 => ?_⟩
  simp only [translate_text]
  rw [if_pos ⟨h1, h2⟩]

/-- Witness for C5 (amended) at a refused connection and at a 404. -/
theorem translate_text_network_error_range_witness :
    translate_text "hi" (.str "en") (.str "fr") (.requestError "Connection refused") =
      .failure "Network error: Connection refused" ∧
    translate_text "hi" (.str "en") (.str "fr") (.response 404 "Not Found" (.fail "x")) =
      .failure ("Network error: " ++
        httpErrorMessage 404 "Not Found" (request_url "hi" (.str "en") (.str "fr"))) := by
  constructor
  · exact ((translate_text_network_error_range "hi" (.str "en")
      (.str "fr")).1 "Connection refused").trans (by rfl)
  · exact (translate_text_network_error_range "hi" (.str "en") (.str "fr")).2
      404 "Not Found" (.fail "x") (by decide) (by decide)

/-- C5 counterexample: a non-2xx response (here 304) does **not** produce a
network-error failure — `raise_for_status` raises only for 400..599, so the
body is parsed and a well-formed success payload even yields a success
envelope. -/
theorem translate_text_non2xx_counterexample :
    translate_text "hi" (.str "en") (.str "fr")
        (.response 304 "Not Modified" (.ok ⟨some 200, some ⟨some "bonjour", []⟩, none, []⟩)) =
      .success "bonjour" (.str "en") (.str "fr") ∧
    ¬∃ e, translate_text "hi" (.str "en") (.str "fr")
        (.response 304 "Not Modified" (.ok ⟨some 200, some ⟨some "bonjour", []⟩, none, []⟩)) =
      .failure e := by
  constructor
  · rfl
  · rintro ⟨e, he⟩
    rw [show translate_text "hi" (.str "en") (.str "fr")
        (.response 304 "Not Modified" (.ok ⟨some 200, some ⟨some "bonjour", []⟩, none, []⟩)) =
      .success "bonjour" (.str "en") (.str "fr") from rfl] at he
    exact Envelope.noConfusion he

/-- C6: a request whose `text` entry trims to the empty string is answered
with the please-enter error, for every provider behaviour — so the provider
is never consulted. -/
theorem translate_empty_text_rejected
    (d : List (String × JsonVal)) (raw : String) (net : ProviderOutcome)
    (htext : dictGet d "text" = some (.str raw))
    (hempty : pyStrip raw = "") :
    translate (.parsed (some d)) net =
      ⟨200, .env (.failure "Please enter text to translate")⟩ := by
  simp only [translate, htext]
  rw [if_pos hempty]

/-- Witness for C6 on a whitespace-only text. -/
theorem translate_empty_text_rejected_witness :
    translate (.parsed (some [("text", .str "   ")])) (.requestError "t") =
      ⟨200, .env (.failure "Please enter text to translate")⟩ :=
  translate_empty_text_rejected _ "   " _ rfl (by decide)

/-- C7: `quote` round-trips — URL-decoding its output restores the original
text exactly, for every string (non-ASCII included). -/
theorem unquote_quote_roundtrip (s : String) : unquote (quote s) = some s := by
  have hb : ∀ b ∈ (s.data.map utf8EncodeChar).flatten, b < 256 := by
    intro b hbm
    rw [List.mem_flatten] at hbm
    rcases hbm with ⟨l, hl, hbl⟩
    rw [List.mem_map] at hl
    rcases hl with ⟨c, _, rfl⟩
    have hc : c.toNat < 0x110000 := by
      rcases char_toNat_valid c with h | ⟨_, h⟩ <;> omega
    exact utf8EncodeNat_lt_256 c.toNat hc b hbl
  have hq : (quote s).data =
      ((s.data.map utf8EncodeChar).flatten.map percentEncodeByte).flatten := rfl
  unfold unquote
  rw [hq, percentDecode_flatten _ hb]
  simp only [Option.bind_eq_bind, Option.some_bind]
  rw [utf8Decode_flatten, Option.some_bind, mapM_ofNat_toNat, Option.some_bind]
  rfl

/-- C8: `GET /languages` returns the catalog object with exactly the 30
language codes of `get_supported_languages`, `"auto"` among them, with no
duplicate keys, in source order. -/
theorem get_languages_catalog_keys :
    get_languages = ⟨200, .langs get_supported_languages⟩ ∧
    get_supported_languages.map Prod.fst =
      ["auto", "en", "hi", "bn", "gu", "ml", "mr", "ta", "te", "es", "fr", "de",
       "it", "pt", "ru", "ja", "ko", "zh", "zh-tw", "ar", "th", "vi", "nl", "sv",
       "no", "da", "fi", "pl", "el", "ro"] ∧
    (get_supported_languages.map Prod.fst).length = 30 ∧
    "auto" ∈ get_supported_languages.map Prod.fst ∧
    (get_supported_languages.map Prod.fst).Nodup :=
  ⟨rfl, rfl, rfl, by decide, by decide⟩

/-- C9: a fault raised inside the handler's `try` block — `get_json`
failing, or `.strip()` on a non-string `text` value — is caught and answered
with a `Server error: …` failure envelope, never propagated. -/
theorem translate_server_error_envelope :
    (∀ msg net, translate (.invalid msg) net =
      ⟨200, .env (.failure ("Server error: " ++ msg))⟩) ∧
    (∀ d v net, dictGet d "text" = some v → (∀ s, v ≠ JsonVal.str s) →
      translate (.parsed (some d)) net =
        ⟨200, .env (.failure ("Server error: " ++ stripAttrError v))⟩) := by
  refine ⟨fun msg net => rfl, fun d v net hv hns => ?_⟩
  cases v with
  | str s => exact absurd rfl (hns s)
  | num n => simp [translate, hv]
  | null => simp [translate, hv]

/-- Witness for C9: a malformed body and a numeric `text` value both produce
`Server error: …` responses. -/
theorem translate_server_error_envelope_witness :
    translate (.invalid "400 Bad Request: The browser (or proxy) sent a request that this server could not understand.")
        (.requestError "t") =
      ⟨200, .env (.failure "Server error: 400 Bad Request: The browser (or proxy) sent a request that this server could not understand.")⟩ ∧
    translate (.parsed (some [("text", .num 5)])) (.requestError "t") =
      ⟨200, .env (.failure "Server error: 'int' object has no attribute 'strip'")⟩ := by
  constructor
  · exact (translate_server_error_envelope.1 _ _).trans (by rfl)
  · exact (translate_server_error_envelope.2 [("text", .num 5)] (.num 5) _ rfl
      (fun s h => JsonVal.noConfusion h)).trans (by rfl)

/-- C10: every response of the `/translate` handler — success, validation
failure, gateway failure — carries HTTP status 200; the only non-200
statuses of the app come from the framework-level 404 and 500 handlers. -/
theorem translate_route_always_http_200 :
    (∀ body net, (translate body net).status = 200) ∧
    not_found.status = 404 ∧ internal_error.status = 500 := by
  refine ⟨fun body net => ?_, rfl, rfl⟩
  cases body with
  | invalid m => rfl
  | parsed data =>
    cases data with
    | none => rfl
    | some d =>
      rcases hg : dictGet d "text" with _ | v
      · simp [translate, hg]
      · cases v with
        | str raw => simp only [translate, hg]; split_ifs <;> rfl
        | num n => simp [translate, hg]
        | null => simp [translate, hg]

end TranslationTool
